import Mathlib

/-!
# Verification of the PharmaQuery RAG pipeline (`rag_tutorials/rag_chain/app.py`)

A shallow embedding of the ingestion and retrieval logic of the single-file
Streamlit RAG application.  The embedding follows the Python source:

* `add_to_db` writes each uploaded file to `./temp/<name>`, loads it with
  `PyPDFLoader`, splits the pages with a token splitter
  (`chunk_size = 100`, `chunk_overlap = 50`), adds the chunks to the Chroma
  collection, and removes the temporary file at the end of the loop body.
  File-system effects and the database are made explicit as a state record;
  a loader failure is an exception, modelled with `Except`.
* `format_docs` joins page contents with `"\n\n"`.
* `run_rag_chain` builds a similarity retriever (`k = 5`), renders the fixed
  prompt template, constructs the chat model with the session's API key
  (`st.session_state.get`), invokes the generative collaborator and parses
  the answer with `StrOutputParser`.
* `main`'s submit handler runs the chain unless the query is falsy
  (the empty string).

The external collaborators (the PDF loader, the sentence-transformers token
splitter, the Chroma similarity search, the embedding model and the chat
model) are not part of the repository; where a claim depends on their
behaviour they are modelled from the specification and the model is marked
`Modelled from the spec:` in its doc string.
-/

/-! ## Ingestion layer: token splitter and `add_to_db` -/

/-- Constant `chunk_size=100` as configured on the splitter in `add_to_db`. -/
def chunk_size : Nat := 100

/-- Constant `chunk_overlap=50` as configured on the splitter in `add_to_db`. -/
def chunk_overlap : Nat := 50

/-- Modelled from the spec: the token splitter
(`SentenceTransformersTokenTextSplitter`, an external library) walks the
token stream, emits a chunk every `chunk_size` tokens, then backs up by
`chunk_overlap` tokens before starting the next chunk, until the tokens are
exhausted; tail chunks shorter than `chunk_size` are kept. -/
def splitTokens {α : Type} (toks : List α) : List (List α) :=
  if toks.length ≤ chunk_size then [toks]
  else toks.take chunk_size :: splitTokens (toks.drop (chunk_size - chunk_overlap))
termination_by toks.length
decreasing_by
  simp only [List.length_drop, chunk_size, chunk_overlap] at *
  omega

/-- Per-page metadata as produced by the PDF loader. -/
structure Metadata where
  source : String
  page : Nat
deriving DecidableEq

/-- One extracted page: its token stream (tokenisation is done by the
external sentence-transformers tokenizer) and its metadata. -/
structure PageDoc where
  page_content : List String
  metadata : Metadata
deriving DecidableEq

/-- One chunk produced by the splitter, inheriting the page's metadata. -/
structure ChunkDoc where
  page_content : List String
  metadata : Metadata
deriving DecidableEq

/-- Splitter call `st_text_splitter.create_documents(doc_content, doc_metadata)`: split each
page's tokens and pair every chunk with its page's metadata. -/
def create_documents (texts : List (List String)) (metadatas : List Metadata) :
    List ChunkDoc :=
  (texts.zip metadatas).flatMap fun tm => (splitTokens tm.fst).map fun c => ⟨c, tm.snd⟩

/-- An uploaded file: its name and its raw buffer (`uploaded_file.getbuffer()`). -/
structure UploadedFile where
  name : String
  buffer : String
deriving DecidableEq

/-- Failure of `PyPDFLoader.load` (an exception in the Python code). -/
inductive LoadError where
  | parse_error : String → LoadError
deriving DecidableEq

/-- The observable state touched by `add_to_db`: the set of paths existing
under `./temp` and the records of the Chroma collection in insertion order. -/
structure FsDbState where
  tempFiles : List String
  db : List ChunkDoc
deriving DecidableEq

/-- Path `os.path.join("./temp", uploaded_file.name)`. -/
def mkTempPath (f : UploadedFile) : String := "./temp/" ++ f.name

/-- Writing the buffer to `path` creates the path (overwriting keeps it). -/
def writeFilePath (files : List String) (p : String) : List String :=
  if p ∈ files then files else files ++ [p]

/-- Deletion `os.remove(path)`: the path no longer exists. -/
def removeFilePath (files : List String) (p : String) : List String :=
  files.filter fun q => decide (q ≠ p)

/-- The body of the `for uploaded_file in uploaded_files` loop of
`add_to_db`: write the temp file, load it (a failure propagates as an
exception, carrying the state at that point), split the pages into chunks,
add them to the database, and only then remove the temp file. -/
def processFile (loader : String → Except LoadError (List PageDoc))
    (s : FsDbState) (f : UploadedFile) : Except (LoadError × FsDbState) FsDbState :=
  let temp_file_path := mkTempPath f
  let s1 : FsDbState := { s with tempFiles := writeFilePath s.tempFiles temp_file_path }
  match loader f.buffer with
  | .error e => .error (e, s1)
  | .ok data =>
      let doc_metadata := data.map fun d => d.metadata
      let doc_content := data.map fun d => d.page_content
      let st_chunks := create_documents doc_content doc_metadata
      let s2 : FsDbState := { s1 with db := s1.db ++ st_chunks }
      .ok { s2 with tempFiles := removeFilePath s2.tempFiles temp_file_path }

/-- The loop of `add_to_db`, processing the files in order; an exception in
one iteration aborts the remaining iterations. -/
def add_to_db_loop (loader : String → Except LoadError (List PageDoc)) :
    List UploadedFile → FsDbState → Except (LoadError × FsDbState) FsDbState
  | [], s => .ok s
  | f :: fs, s =>
      match processFile loader s f with
      | .error es => .error es
      | .ok s1 => add_to_db_loop loader fs s1

/-- Function `add_to_db(uploaded_files)`: an empty upload list only shows an error
message and returns (state unchanged); otherwise every file is processed in
order. -/
def add_to_db (loader : String → Except LoadError (List PageDoc))
    (uploaded_files : List UploadedFile) (s : FsDbState) :
    Except (LoadError × FsDbState) FsDbState :=
  if uploaded_files.isEmpty then .ok s
  else add_to_db_loop loader uploaded_files s

/-! ## Retrieval and orchestration layer: `format_docs`, `run_rag_chain`, `main` -/

/-- A langchain `Document` as returned by the retriever: its text and its
metadata mapping. -/
structure Document where
  page_content : String
  metadata : List (String × String)
deriving DecidableEq

/-- Function `format_docs(docs)`: `"\n\n".join(doc.page_content for doc in docs)`. -/
def format_docs (docs : List Document) : String :=
  String.intercalate "\n\n" (docs.map fun doc => doc.page_content)

/-- Modelled from the spec: the Chroma similarity search (external library)
embeds the query and returns the `k` stored records with highest similarity
score, ordered descending by score; with fewer than `k` records it returns
all of them.  The scoring function (query text and stored record to a
similarity score) abstracts the embedding collaborator together with the
similarity metric. -/
def similarity_search (score : String → Document → Int) (store : List Document)
    (query : String) (k : Nat) : List Document :=
  (store.mergeSort fun a b => decide (score query b ≤ score query a)).take k

/-- Retriever `db.as_retriever` with similarity search and `k = 5`,
applied to a query. -/
def as_retriever_get (score : String → Document → Int) (store : List Document)
    (query : String) : List Document :=
  similarity_search score store query 5

/-- Modelled from the spec: `search` as an operation on the store's state; it
returns its result together with the store it leaves behind (Chroma search is
read-only, so the store is returned unchanged). -/
def searchOp (score : String → Document → Int) (query : String) (k : Nat)
    (store : List Document) : List Document × List Document :=
  (similarity_search score store query k, store)

/-- Insertion `db.add_documents(chunks)`: append-only insertion into the collection. -/
def add_documents (store : List Document) (docs : List Document) : List Document :=
  store ++ docs

/-- The chat model as constructed in `run_rag_chain`:
`ChatGoogleGenerativeAI(model=..., api_key=..., temperature=...)`. -/
structure ChatGoogleGenerativeAI where
  model : String
  api_key : Option String
  temperature : Nat
deriving DecidableEq

/-- The raw chat-model output before parsing. -/
structure AIMessage where
  content : String
deriving DecidableEq

/-- Parser `StrOutputParser`: strip the structural wrapping down to the text. -/
def StrOutputParser (m : AIMessage) : String := m.content

/-- Lookup `st.session_state.get(key)`: `none` when the key was never stored. -/
def session_get (session : List (String × String)) (key : String) : Option String :=
  (session.find? fun kv => kv.fst == key).map fun kv => kv.snd

/-- The literal `PROMPT_TEMPLATE` of `run_rag_chain`. -/
def PROMPT_TEMPLATE : String :=
  "\n    You are a highly knowledgeable assistant specializing in pharmaceutical sciences. \n    Answer the question based only on the following context:\n    {context}\n\n    Answer the question based on the above context:\n    {question}\n\n    Use the provided context to answer the user's question accurately and concisely.\n    Don't justify your answers.\n    Don't give information not mentioned in the CONTEXT INFORMATION.\n    Do not say \"according to the context\" or \"mentioned in the context\" or similar.\n    "

/-- Template `ChatPromptTemplate.from_template(PROMPT_TEMPLATE)` rendered with the
context string and the question substituted verbatim. -/
def promptRender (context question : String) : String :=
  (PROMPT_TEMPLATE.replace "{context}" context).replace "{question}" question

/-- Function `run_rag_chain(query)`: retrieve the top 5 documents, format them into
the context, render the prompt, construct the chat model with the session's
`gemini_api_key`, invoke the generative collaborator `gen`, and parse the
answer.  No validation happens anywhere on this path. -/
def run_rag_chain (score : String → Document → Int) (store : List Document)
    (gen : ChatGoogleGenerativeAI → String → AIMessage)
    (session : List (String × String)) (query : String) : String :=
  let retrieved := as_retriever_get score store query
  let context := format_docs retrieved
  let prompt := promptRender context query
  let chat_model : ChatGoogleGenerativeAI :=
    { model := "gemini-1.5-pro"
      api_key := session_get session "gemini_api_key"
      temperature := 1 }
  StrOutputParser (gen chat_model prompt)

/-- The submit handler of `main`: `if not query:` shows a warning (`none`)
— only the empty string is falsy — otherwise it runs the chain. -/
def main_submit (score : String → Document → Int) (store : List Document)
    (gen : ChatGoogleGenerativeAI → String → AIMessage)
    (session : List (String × String)) (query : String) : Option String :=
  if query = "" then none
  else some (run_rag_chain score store gen session query)

/-! ## Concrete fixtures used by counterexamples and witnesses -/

/-- A loader that fails on the buffer `"BAD"` and otherwise extracts one
one-token page. -/
def badLoader : String → Except LoadError (List PageDoc) := fun b =>
  if b = "BAD" then .error (.parse_error "could not parse")
  else .ok [⟨["aspirin"], ⟨"good.pdf", 0⟩⟩]

/-- An unparseable upload. -/
def badFile : UploadedFile := ⟨"doc.pdf", "BAD"⟩

/-- A parseable upload. -/
def goodFile : UploadedFile := ⟨"good.pdf", "GOOD"⟩

/-- The initial state: no temp files, empty collection. -/
def s0 : FsDbState := ⟨[], []⟩

/-- A concrete scoring function: longer text scores higher. -/
def score0 : String → Document → Int := fun _ d => (d.page_content.length : Int)

/-- A generative collaborator that ignores its input; its sentinel output is
observable in the chain's answer exactly when the model was invoked. -/
def gen_sentinel : ChatGoogleGenerativeAI → String → AIMessage := fun _ _ => ⟨"SENTINEL"⟩

/-- A generative collaborator that echoes the rendered prompt. -/
def gen_echo : ChatGoogleGenerativeAI → String → AIMessage := fun _ p => ⟨p⟩

/-- A stored record. -/
def docA : Document := ⟨"Aspirin inhibits COX enzymes.", []⟩

/-- Another stored record. -/
def docB : Document := ⟨"Ibuprofen.", []⟩

/-- A store holding exactly two records. -/
def store2 : List Document := [docA, docB]

/-! ## Splitter lemmas -/

/-- The number of chunks produced by the splitter, as a function of the
token length of the page. -/
theorem splitTokens_length {α : Type} (toks : List α) :
    (splitTokens toks).length =
      if toks.length ≤ chunk_size then 1
      else (toks.length - chunk_overlap + (chunk_size - chunk_overlap) - 1) /
        (chunk_size - chunk_overlap) := by
  induction toks using splitTokens.induct with
  | case1 toks h => rw [splitTokens]; simp [h]
  | case2 toks h ih =>
      rw [splitTokens]
      simp only [if_neg h, List.length_cons]
      rw [ih]
      simp only [List.length_drop, chunk_size, chunk_overlap] at *
      split <;> omega

/-- Every chunk is a verbatim window of the token stream: the `i`-th chunk
is `chunk_size` tokens starting `chunk_size − chunk_overlap` tokens after the
previous chunk's start (the tail window is whatever remains, unpadded). -/
theorem splitTokens_eq_map_range {α : Type} (toks : List α) :
    splitTokens toks = (List.range (splitTokens toks).length).map
      (fun i => (toks.drop ((chunk_size - chunk_overlap) * i)).take chunk_size) := by
  induction toks using splitTokens.induct with
  | case1 toks h =>
      rw [splitTokens]
      simp only [if_pos h]
      rw [show List.range [toks].length = [0] from rfl]
      simp [List.take_of_length_le h]
  | case2 toks h ih =>
      rw [splitTokens]
      simp only [if_neg h, List.length_cons, List.range_succ_eq_map, List.map_cons,
        List.map_map]
      congr 1
      rw [ih]
      simp only [List.length_map, List.length_range]
      apply List.map_congr_left
      intro i _
      simp only [Function.comp_apply, List.drop_drop, Nat.succ_eq_add_one]
      congr 2
      simp only [chunk_size, chunk_overlap]
      omega

/-- Claim C4: with `chunk_size=100` and `chunk_overlap=50`, splitting a page
of token length `L` yields `⌈(L − overlap) / (chunk_size − overlap)⌉` chunks
when `L > chunk_size` and exactly one chunk otherwise; every chunk is the
verbatim `chunk_size`-token window starting `chunk_size − chunk_overlap`
tokens after the previous one, so tails shorter than `chunk_size` are kept
unpadded and nothing is dropped. -/
theorem splitter_chunk_count_and_windows (toks : List String) :
    ((splitTokens toks).length =
      if toks.length ≤ chunk_size then 1
      else (toks.length - chunk_overlap + (chunk_size - chunk_overlap) - 1) /
        (chunk_size - chunk_overlap))
    ∧ splitTokens toks = (List.range (splitTokens toks).length).map
        (fun i => (toks.drop ((chunk_size - chunk_overlap) * i)).take chunk_size) :=
  ⟨splitTokens_length toks, splitTokens_eq_map_range toks⟩

/-! ## `String.intercalate` lemmas for `format_docs` -/

/-- Prepending onto the accumulator of `String.intercalate.go` prepends onto
its result. -/
theorem intercalate_go_append (s : String) (l : List String) :
    ∀ a b : String, String.intercalate.go (a ++ b) s l = a ++ String.intercalate.go b s l := by
  induction l with
  | nil => intro a b; rfl
  | cons c l ih =>
      intro a b
      show String.intercalate.go (a ++ b ++ s ++ c) s l =
        a ++ String.intercalate.go (b ++ s ++ c) s l
      rw [String.append_assoc a b s, String.append_assoc a (b ++ s) c]
      exact ih a (b ++ s ++ c)

/-- `intercalate` on a list with at least two elements peels off the head and
one separator. -/
theorem intercalate_cons_cons (s a b : String) (l : List String) :
    String.intercalate s (a :: b :: l) = a ++ s ++ String.intercalate s (b :: l) := by
  show String.intercalate.go a s (b :: l) = a ++ s ++ String.intercalate.go b s l
  show String.intercalate.go (a ++ s ++ b) s l = a ++ s ++ String.intercalate.go b s l
  exact intercalate_go_append s l (a ++ s) b

/-- Claim C6: the context string placed into the prompt is the concatenation
of the retrieved chunks' texts in ranked order, consecutive texts separated
by exactly one blank line; and `run_rag_chain` feeds exactly
`format_docs` of the ranked retrieval result into the prompt template. -/
theorem context_is_ranked_blank_line_concat :
    (format_docs [] = "")
    ∧ (∀ d : Document, format_docs [d] = d.page_content)
    ∧ (∀ (d : Document) (ds : List Document), ds ≠ [] →
        format_docs (d :: ds) = d.page_content ++ "\n\n" ++ format_docs ds)
    ∧ ∀ (score : String → Document → Int) (store : List Document)
        (gen : ChatGoogleGenerativeAI → String → AIMessage)
        (session : List (String × String)) (q : String),
        run_rag_chain score store gen session q =
          StrOutputParser (gen
            { model := "gemini-1.5-pro"
              api_key := session_get session "gemini_api_key"
              temperature := 1 }
            (promptRender (format_docs (as_retriever_get score store q)) q)) := by
  refine ⟨rfl, fun d => rfl, ?_, fun score store gen session q => rfl⟩
  intro d ds h
  cases ds with
  | nil => exact absurd rfl h
  | cons e es => exact intercalate_cons_cons "\n\n" d.page_content e.page_content _

/-- Concrete check of the C6 separator law on a two-document result. -/
theorem context_is_ranked_blank_line_concat_witness :
    format_docs [docA, docB] = docA.page_content ++ "\n\n" ++ format_docs [docB] :=
  context_is_ranked_blank_line_concat.2.2.1 docA [docB] (by simp)

/-! ## Vector-store retrieval theorems -/

/-- Claim C5: for every query and `k > 0`, search returns `min k n` records
(all of them when the store holds fewer than `k`), ordered by descending
score, and they dominate every record left out. -/
theorem similarity_search_top_k (score : String → Document → Int)
    (store : List Document) (q : String) (k : Nat) (hk : 0 < k) :
    (similarity_search score store q k).length = min k store.length
    ∧ (similarity_search score store q k).Pairwise (fun a b => score q b ≤ score q a)
    ∧ ∃ rest : List Document,
        store.Perm (similarity_search score store q k ++ rest)
        ∧ ∀ a ∈ similarity_search score store q k, ∀ b ∈ rest, score q b ≤ score q a := by
  have htrans : ∀ a b c : Document,
      (fun a b => decide (score q b ≤ score q a)) a b →
      (fun a b => decide (score q b ≤ score q a)) b c →
      (fun a b => decide (score q b ≤ score q a)) a c := by
    intro a b c hab hbc
    simp only [decide_eq_true_eq] at *
    exact le_trans hbc hab
  have htotal : ∀ a b : Document,
      (fun a b => decide (score q b ≤ score q a)) a b ||
      (fun a b => decide (score q b ≤ score q a)) b a := by
    intro a b
    simp only [Bool.or_eq_true, decide_eq_true_eq]
    exact le_total _ _
  have hsorted := List.sorted_mergeSort htrans htotal store
  have hperm : store.Perm (store.mergeSort fun a b => decide (score q b ≤ score q a)) :=
    (List.mergeSort_perm store _).symm
  refine ⟨?_, ?_, ?_⟩
  · simp [similarity_search]
  · have h1 : ((store.mergeSort fun a b => decide (score q b ≤ score q a)).take k).Pairwise
        (fun a b => decide (score q b ≤ score q a) = true) :=
      List.Pairwise.sublist (List.take_sublist k _) hsorted
    have h2 := h1.imp (fun h => of_decide_eq_true h)
    simpa [similarity_search] using h2
  · refine ⟨(store.mergeSort fun a b => decide (score q b ≤ score q a)).drop k, ?_, ?_⟩
    · have heq : similarity_search score store q k ++
          (store.mergeSort fun a b => decide (score q b ≤ score q a)).drop k =
          store.mergeSort fun a b => decide (score q b ≤ score q a) := by
        simp only [similarity_search]
        exact List.take_append_drop k _
      rw [heq]
      exact hperm
    · intro a ha b hb
      have h3 : (((store.mergeSort fun a b => decide (score q b ≤ score q a)).take k) ++
          ((store.mergeSort fun a b => decide (score q b ≤ score q a)).drop k)).Pairwise
          (fun a b => decide (score q b ≤ score q a) = true) := by
        rw [List.take_append_drop]
        exact hsorted
      obtain ⟨-, -, hcross⟩ := List.pairwise_append.mp h3
      have h4 := hcross a (by simpa [similarity_search] using ha) b hb
      exact of_decide_eq_true h4

/-- Concrete check of C5: `k = 5` against a store of 2 records returns
exactly 2 records. -/
theorem similarity_search_top_k_witness :
    0 < 5 ∧
    ((similarity_search score0 store2 "q" 5).length = min 5 store2.length
     ∧ (similarity_search score0 store2 "q" 5).Pairwise
         (fun a b => score0 "q" b ≤ score0 "q" a)
     ∧ ∃ rest : List Document,
         store2.Perm (similarity_search score0 store2 "q" 5 ++ rest)
         ∧ ∀ a ∈ similarity_search score0 store2 "q" 5, ∀ b ∈ rest,
             score0 "q" b ≤ score0 "q" a) :=
  ⟨by decide, similarity_search_top_k score0 store2 "q" 5 (by decide)⟩

/-- Claim C7: searching twice with no insert in between returns identical
ordered results, and search leaves the store unchanged. -/
theorem search_twice_identical (score : String → Document → Int)
    (q : String) (k : Nat) (store : List Document) :
    (searchOp score q k (searchOp score q k store).2).1 = (searchOp score q k store).1
    ∧ (searchOp score q k (searchOp score q k store).2).2 = store :=
  ⟨rfl, rfl⟩

/-- Claim C8: insertion is append-only, so a record already in the store is
still returned by search after further inserts whenever `k` is at least the
store's size (no eviction, no expiry). -/
theorem inserted_record_remains_retrievable (score : String → Document → Int)
    (q : String) (store new : List Document) (r : Document) (k : Nat)
    (hr : r ∈ store) (hk : (add_documents store new).length ≤ k) :
    r ∈ similarity_search score (add_documents store new) q k := by
  have hlen : ((add_documents store new).mergeSort
      fun a b => decide (score q b ≤ score q a)).length ≤ k := by
    simpa using hk
  simp only [similarity_search, List.take_of_length_le hlen, List.mem_mergeSort]
  simp only [add_documents]
  exact List.mem_append_left new hr

/-- Concrete check of C8 after inserting a second record. -/
theorem inserted_record_remains_retrievable_witness :
    docA ∈ similarity_search score0 (add_documents [docA] [docB]) "q" 5 :=
  inserted_record_remains_retrievable score0 "q" [docA] [docB] docA 5
    (List.mem_singleton.mpr rfl) (by decide)

/-! ## Orchestrator theorems -/

/-- Claim C3 counterexample: a whitespace-only query (a single space) is not
rejected — the submit handler runs the chain and the generative
collaborator's sentinel output reaches the answer, so the collaborator was
invoked. -/
theorem whitespace_query_not_rejected :
    main_submit score0 [] gen_sentinel [] " " = some "SENTINEL"
    ∧ main_submit score0 [] gen_sentinel [] " " ≠ none := by
  have h : main_submit score0 [] gen_sentinel [] " " = some "SENTINEL" := rfl
  exact ⟨h, by rw [h]; exact Option.some_ne_none _⟩

/-- Claim C3 amended: only the exactly-empty query is rejected (with a UI
warning, before the chain — and hence before either collaborator — runs);
every non-empty query, including whitespace-only ones, is passed to
`run_rag_chain` and reaches the collaborators. -/
theorem only_exactly_empty_query_rejected (score : String → Document → Int)
    (store : List Document) (gen : ChatGoogleGenerativeAI → String → AIMessage)
    (session : List (String × String)) :
    main_submit score store gen session "" = none
    ∧ ∀ q : String, q ≠ "" →
        main_submit score store gen session q =
          some (run_rag_chain score store gen session q) := by
  refine ⟨rfl, ?_⟩
  intro q hq
  simp [main_submit, hq]

/-- Concrete check of the amended C3 on a whitespace-only query. -/
theorem only_exactly_empty_query_rejected_witness :
    main_submit score0 [] gen_sentinel [] " " =
      some (run_rag_chain score0 [] gen_sentinel [] " ") :=
  (only_exactly_empty_query_rejected score0 [] gen_sentinel []).2 " " (by decide)

/-- Claim C9: with an empty store, retrieval returns no records, the context
is the empty string (`format_docs [] = ""`), the prompt is still rendered
and the generative model is still invoked on it — nothing is raised. -/
theorem empty_retrieval_still_invokes_model (score : String → Document → Int)
    (gen : ChatGoogleGenerativeAI → String → AIMessage)
    (session : List (String × String)) (q : String) :
    run_rag_chain score [] gen session q =
      StrOutputParser (gen
        { model := "gemini-1.5-pro"
          api_key := session_get session "gemini_api_key"
          temperature := 1 }
        (promptRender "" q))
    ∧ format_docs [] = "" := by
  constructor
  · unfold run_rag_chain as_retriever_get similarity_search
    rw [List.mergeSort_nil]
    rfl
  · rfl

/-- Claim C10: with no stored API key the session lookup yields `none`, no
credential check intervenes, and the chain still runs retrieval, context
formatting, prompt rendering and the model invocation, passing the `none`
credential to the chat model. -/
theorem no_credential_validation_before_model_call
    (score : String → Document → Int) (store : List Document)
    (gen : ChatGoogleGenerativeAI → String → AIMessage)
    (session : List (String × String)) (q : String)
    (h : session_get session "gemini_api_key" = none) :
    run_rag_chain score store gen session q =
      StrOutputParser (gen
        { model := "gemini-1.5-pro", api_key := none, temperature := 1 }
        (promptRender (format_docs (as_retriever_get score store q)) q)) := by
  unfold run_rag_chain
  rw [h]

/-- Concrete check of C10 with an empty session. -/
theorem no_credential_validation_before_model_call_witness :
    run_rag_chain score0 store2 gen_sentinel [] "q" =
      StrOutputParser (gen_sentinel
        { model := "gemini-1.5-pro", api_key := none, temperature := 1 }
        (promptRender (format_docs (as_retriever_get score0 store2 "q")) "q")) :=
  no_credential_validation_before_model_call score0 store2 gen_sentinel [] "q" rfl

/-! ## Ingestion theorems (`add_to_db`) -/

/-- Claim C1 counterexample: when the loader fails, `add_to_db` propagates
the exception without reaching `os.remove`, so the scratch file
`./temp/doc.pdf` still exists after the call. -/
theorem temp_file_left_behind_on_load_error :
    add_to_db badLoader [badFile] s0 =
      .error (.parse_error "could not parse", ⟨["./temp/doc.pdf"], []⟩)
    ∧ "./temp/doc.pdf" ∈ (FsDbState.mk ["./temp/doc.pdf"] []).tempFiles := by
  constructor
  · simp [add_to_db, add_to_db_loop, processFile, badLoader, badFile, s0, mkTempPath,
      writeFilePath]
  · simp

/-- Removing the just-written temp path undoes the write and also clears any
stale copy of the same path. -/
theorem removeFilePath_writeFilePath (l : List String) (p : String) :
    removeFilePath (writeFilePath l p) p = l.filter fun q => decide (q ≠ p) := by
  unfold writeFilePath removeFilePath
  split
  · rfl
  · rw [List.filter_append]
    simp

/-- On a successful run of the ingestion loop, the surviving temp paths are
exactly the initial ones that are not the temp path of any processed file. -/
theorem add_to_db_loop_ok_tempFiles (loader : String → Except LoadError (List PageDoc)) :
    ∀ (files : List UploadedFile) (s s1 : FsDbState),
      add_to_db_loop loader files s = .ok s1 →
      s1.tempFiles = s.tempFiles.filter fun p => decide (p ∉ files.map mkTempPath) := by
  intro files
  induction files with
  | nil =>
      intro s s1 h
      obtain rfl : s = s1 := by simpa [add_to_db_loop] using h
      simp
  | cons f fs ih =>
      intro s s1 h
      simp only [add_to_db_loop] at h
      cases hl : loader f.buffer with
      | error e =>
          simp [processFile, hl] at h
      | ok data =>
          simp only [processFile, hl] at h
          have h2 := ih _ _ h
          rw [h2]
          simp only
          rw [removeFilePath_writeFilePath, List.filter_filter]
          refine List.filter_congr ?_
          intro a ha
          rw [Bool.eq_iff_iff]
          simp only [Bool.and_eq_true, decide_eq_true_eq, List.map_cons, List.mem_cons,
            not_or]
          tauto

/-- Claim C1 amended: the temporary file of each document is deleted on the
success path only — after a fully successful `add_to_db` no processed file's
temp path survives (the surviving paths are exactly the pre-existing ones
not written by this batch); when the loader raises, the temp file is left
behind (see the counterexample). -/
theorem temp_files_removed_on_success (loader : String → Except LoadError (List PageDoc))
    (files : List UploadedFile) (s s1 : FsDbState)
    (h : add_to_db loader files s = .ok s1) :
    s1.tempFiles = s.tempFiles.filter (fun p => decide (p ∉ files.map mkTempPath))
    ∧ ∀ f ∈ files, mkTempPath f ∉ s1.tempFiles := by
  have h1 : s1.tempFiles =
      s.tempFiles.filter (fun p => decide (p ∉ files.map mkTempPath)) := by
    unfold add_to_db at h
    split at h
    · next hemp =>
        obtain rfl : s = s1 := by simpa using h
        have hnil : files = [] := by simpa using hemp
        subst hnil
        simp
    · exact add_to_db_loop_ok_tempFiles loader files s s1 h
  refine ⟨h1, ?_⟩
  intro f hf hmem
  rw [h1] at hmem
  have h2 := (List.mem_filter.mp hmem).2
  simp only [decide_eq_true_eq] at h2
  exact h2 (List.mem_map_of_mem mkTempPath hf)

/-- A single-token page yields a single one-token chunk. -/
theorem splitTokens_single (a : String) : splitTokens [a] = [[a]] := by
  rw [splitTokens]
  simp [chunk_size]

/-- Ingesting the parseable file alone succeeds: one chunk is added and the
temp file is gone. -/
theorem add_good_eq :
    add_to_db badLoader [goodFile] s0 =
      .ok ⟨[], [⟨["aspirin"], ⟨"good.pdf", 0⟩⟩]⟩ := by
  simp [add_to_db, add_to_db_loop, processFile, badLoader, goodFile, s0, mkTempPath,
    writeFilePath, removeFilePath, create_documents, splitTokens_single]

/-- Concrete check of the amended C1 on a successful single-file batch. -/
theorem temp_files_removed_on_success_witness :
    (FsDbState.mk ([] : List String) [⟨["aspirin"], ⟨"good.pdf", 0⟩⟩]).tempFiles =
      s0.tempFiles.filter (fun p => decide (p ∉ [goodFile].map mkTempPath))
    ∧ ∀ f ∈ [goodFile], mkTempPath f ∉
        (FsDbState.mk ([] : List String) [⟨["aspirin"], ⟨"good.pdf", 0⟩⟩]).tempFiles :=
  temp_files_removed_on_success badLoader [goodFile] s0 _ add_good_eq

/-- Claim C2 counterexample: the parseable document ingests one chunk when
uploaded alone, but in a batch behind an unparseable document the whole call
raises with an empty database — the good document is never ingested, so one
bad document does abort the batch. -/
theorem one_bad_document_aborts_batch :
    add_to_db badLoader [badFile, goodFile] s0 =
      .error (.parse_error "could not parse", ⟨["./temp/doc.pdf"], []⟩)
    ∧ add_to_db badLoader [goodFile] s0 =
      .ok ⟨[], [⟨["aspirin"], ⟨"good.pdf", 0⟩⟩]⟩ := by
  constructor
  · simp [add_to_db, add_to_db_loop, processFile, badLoader, badFile, s0, mkTempPath,
      writeFilePath]
  · exact add_good_eq

/-- Claim C2 amended: a load failure is still reported (the exception carries
the document's error and propagates to the caller), but it aborts the rest of
the batch: the database keeps exactly the chunks committed before the failing
document, and the documents after it are never processed. -/
theorem load_failure_aborts_rest_of_batch
    (loader : String → Except LoadError (List PageDoc))
    (f : UploadedFile) (fs : List UploadedFile) (s : FsDbState) (e : LoadError)
    (h : loader f.buffer = .error e) :
    add_to_db_loop loader (f :: fs) s =
      .error (e, { s with tempFiles := writeFilePath s.tempFiles (mkTempPath f) }) := by
  simp [add_to_db_loop, processFile, h]

/-- Concrete check of the amended C2: the bad document's failure propagates
and the good document behind it is never processed. -/
theorem load_failure_aborts_rest_of_batch_witness :
    add_to_db_loop badLoader [badFile, goodFile] s0 =
      .error (.parse_error "could not parse",
        { s0 with tempFiles := writeFilePath s0.tempFiles (mkTempPath badFile) }) :=
  load_failure_aborts_rest_of_batch badLoader badFile [goodFile] s0
    (.parse_error "could not parse") rfl
